import Mathlib

/-!
Verification of the rate-controlled dispatch engine of the Event Hub load
generator (`eventhub_simulator.py`).

The Python source is shallowly embedded as executable Lean definitions:

* `MessageGenerator.generate_message` (source lines 163-206) becomes
  `generate_message`, with an explicit random/clock oracle `Env` replacing the
  global `random` module and `datetime.now`.  Python values that can appear as
  generated field values are modelled by `PyVal`; Python float generation and
  its `repr`-based JSON formatting are delegated to the oracle (`Env.floatLit`)
  because binary floating point formatting is outside the embedding; the branch
  logic of the generator only inspects the value's type and serialized length.
* `json.dumps(..., separators=(',', ':'))` becomes `pyJsonDumpObj` /
  `pyJsonDumpVal` with the `ensure_ascii` escaping rules of the standard
  library encoder.
* `EventHubSender.send_batch` (lines 228-250) becomes `send_batch`, with a
  `SinkEnv` oracle describing which producer operations raise.
* `message_sender_worker` (lines 253-294) becomes `workerIter` / `workerRun`;
  each iteration of the Python `while` loop is one transition, with an
  `IterEvent` describing the environment's behaviour during the iteration.
* the `stats` dictionary and the operations on it (lines 283-284, 302-319,
  450-458) become `Stats`, `addSent`, `stats_reporter_tick`, `final_summary`;
  under the asyncio event loop each of these code regions runs atomically
  (it contains no `await`), so each is one atomic transition.
* the shutdown flag `shutdown_event` and `signal_handler` (lines 325-328)
  become `SysState.shutdown` / `signal_handler`.
* the worker-count policy of `main` (lines 409-410) becomes `num_workers` /
  `rate_per_worker`, and the batch-size policy of the worker (lines 261-270)
  becomes `worker_batch_size` / `worker_sleep_time`.
-/

/-- Python values that can occur as generated JSON field values.  A float
carries the string `repr` the oracle assigned to it (its numeric value is
never inspected by the generator, only its type and serialized form). -/
inductive PyVal where
  | int (n : Int)
  | float (lit : String)
  | bool (b : Bool)
  | str (s : String)
deriving DecidableEq, Repr

/-- Hexadecimal digit characters, lower case as produced by Python's
`json` encoder. -/
def hexDigit (n : Nat) : Char :=
  if n < 10 then Char.ofNat (48 + n) else Char.ofNat (87 + n % 16)

/-- Four-digit hexadecimal rendering used for `\uXXXX` escapes. -/
def hex4 (n : Nat) : String :=
  String.mk [hexDigit (n / 4096 % 16), hexDigit (n / 256 % 16),
             hexDigit (n / 16 % 16), hexDigit (n % 16)]

/-- Escaping of one character by Python's `json.dumps` with the default
`ensure_ascii=True`: printable ASCII (0x20-0x7e) other than quote and
backslash is passed through, everything else is escaped. -/
def jsonEscapeChar (c : Char) : String :=
  if c = '"' then "\\\""
  else if c = '\\' then "\\\\"
  else if c = '\n' then "\\n"
  else if c = '\r' then "\\r"
  else if c = '\t' then "\\t"
  else if c.toNat = 8 then "\\b"
  else if c.toNat = 12 then "\\f"
  else if 32 ≤ c.toNat ∧ c.toNat ≤ 126 then String.singleton c
  else if c.toNat ≤ 65535 then "\\u" ++ hex4 c.toNat
  else
    "\\u" ++ hex4 (55296 + (c.toNat - 65536) / 1024) ++
    "\\u" ++ hex4 (56320 + (c.toNat - 65536) % 1024)

/-- JSON string literal for `s`, as produced by `json.dumps(s)`. -/
def jsonQuote (s : String) : String :=
  "\"" ++ String.join (s.data.map jsonEscapeChar) ++ "\""

/-- `json.dumps` of a single Python value (compact separators). -/
def pyJsonDumpVal : PyVal → String
  | .int n => toString n
  | .float lit => lit
  | .bool b => if b then "true" else "false"
  | .str s => jsonQuote s

/-- `json.dumps` of a Python dict (modelled as an insertion-ordered
association list) with `separators=(',', ':')`. -/
def pyJsonDumpObj (m : List (String × PyVal)) : String :=
  "\x7b" ++
    String.intercalate ","
      (m.map (fun kv => jsonQuote kv.1 ++ ":" ++ pyJsonDumpVal kv.2)) ++
  "\x7d"

/-- Lookup in a Python dict modelled as an insertion-ordered association
list. -/
def dictGet : List (String × PyVal) → String → Option PyVal
  | [], _ => none
  | (k, v) :: rest, key => if k = key then some v else dictGet rest key

/-- Assignment `d[key] = v` on a Python dict: overwrite in place if the key
exists, otherwise append preserving insertion order. -/
def dictSet : List (String × PyVal) → String → PyVal → List (String × PyVal)
  | [], key, v => [(key, v)]
  | (k, w) :: rest, key, v =>
      if k = key then (key, v) :: rest else (k, w) :: dictSet rest key v

/-- The f-string `f"field_{field_count}"` of line 180. -/
def fieldName (n : Nat) : String := "field_" ++ toString n

/-- Oracle standing for the ambient nondeterminism of one run: the stream of
values returned by the `random` module (`draw i` is the `i`-th draw), the
`repr` strings of the floats drawn (`floatLit i` for a float drawn at
position `i`), and the wall clock (`now i` is
`datetime.now(timezone.utc).isoformat()` when the stream position is `i`). -/
structure Env where
  draw : Nat → Nat
  floatLit : Nat → String
  now : Nat → String

/-- `random.randint(lo, hi)` (inclusive bounds), driven by one oracle draw. -/
def pyRandint (lo hi : Int) (d : Nat) : Int :=
  lo + Int.ofNat (d % (hi - lo + 1).toNat)

/-- `random.choice` on a list of strings, driven by one oracle draw
(meaningful for nonempty lists, which is the only way the source uses it). -/
def pyChoiceStr (l : List String) (d : Nat) : String :=
  l.getD (d % l.length) ""

/-- Python `s[:n]` for a possibly negative bound as it occurs in the
truncation branch (only ever applied with `0 < n` there). -/
def pyStrTake (s : String) (n : Int) : String := s.take n.toNat

/-- Immutable configuration of `MessageGenerator` after `__init__`
(lines 131-145): the stored target size, effective symbol list and the
`message_generation` tuning knobs. -/
structure MsgGenConfig where
  target_size : Int
  stock_symbols : List String
  target_field_count : Int
  field_count_variance : Int
  size_tolerance : Int
  string_length_min : Int
  string_length_max : Int
  number_min : Int
  number_max : Int
  float_precision : Nat
deriving Repr

/-- `MessageGenerator.__init__`: `self.stock_symbols = stock_symbols or
['AAPL', ...]` (line 133) replaces a missing/empty symbol list by the default
one; the remaining knobs are stored as given (they already carry the
`msg_config.get(..., default)` values). -/
def mkMessageGenerator (target_size : Int) (stock_symbols : List String)
    (target_field_count field_count_variance size_tolerance : Int)
    (string_length_min string_length_max number_min number_max : Int)
    (float_precision : Nat) : MsgGenConfig :=
  { target_size := target_size
    stock_symbols :=
      if stock_symbols.isEmpty then ["AAPL", "GOOGL", "MSFT", "TSLA", "AMZN"]
      else stock_symbols
    target_field_count := target_field_count
    field_count_variance := field_count_variance
    size_tolerance := size_tolerance
    string_length_min := string_length_min
    string_length_max := string_length_max
    number_min := number_min
    number_max := number_max
    float_precision := float_precision }

/-- `string.ascii_letters + string.digits`, the alphabet of the random-string
field template (line 156). -/
def alnumAlphabet : List Char :=
  "abcdefghijklmnopqrstuvwxyzABCDEFGHIJKLMNOPQRSTUVWXYZ0123456789".data

/-- `''.join(random.choices(alphabet, k=len))`: `len` characters, one draw
each, starting at stream position `k`. -/
def randAlnumString (env : Env) (k : Nat) : Nat → List Char
  | 0 => []
  | n + 1 =>
      alnumAlphabet.getD (env.draw k % alnumAlphabet.length) 'a' ::
        randAlnumString env (k + 1) n

/-- One call of `random.choice(self.field_templates)()` (line 181): the first
draw selects one of the eight templates of `_create_field_templates`
(lines 152-161), the following draws drive the selected template.  Returns
the generated value and the next stream position. -/
def genFieldValue (cfg : MsgGenConfig) (env : Env) (k : Nat) : PyVal × Nat :=
  let t := env.draw k % 8
  let k := k + 1
  if t = 0 then
    (.int (pyRandint cfg.number_min cfg.number_max (env.draw k)), k + 1)
  else if t = 1 then
    (.float (env.floatLit k), k + 1)
  else if t = 2 then
    (.bool (env.draw k % 2 = 0), k + 1)
  else if t = 3 then
    let len :=
      (pyRandint cfg.string_length_min cfg.string_length_max (env.draw k)).toNat
    (.str (String.mk (randAlnumString env (k + 1) len)), k + 1 + len)
  else if t = 4 then
    (.str (pyChoiceStr ["active", "inactive", "pending", "completed", "failed"]
            (env.draw k)), k + 1)
  else if t = 5 then
    (.str ("user_" ++ toString (pyRandint 1000 9999 (env.draw k))), k + 1)
  else if t = 6 then
    (.str ("session_" ++ toString (pyRandint 100000 999999 (env.draw k))),
     k + 1)
  else
    (.int (pyRandint 1000000000 9999999999 (env.draw k)), k + 1)

/-- The overflow-handling branch of `generate_message` (lines 188-200),
entered when `current_size + field_size > target_size`: a string longer than
5 characters is truncated to `target_size - current_size - len(field_name) -
10` characters if that bound is positive (else the loop breaks); an `int` or
`float` — which in Python includes `bool`, a subclass of `int` — is replaced
by `random.randint(1, 99)` provided `field_count > 10`; every other case
breaks.  Returns `some` replacement value to keep appending with, or `none`
for `break`, together with the next stream position. -/
def overflowStep (cfg : MsgGenConfig) (env : Env) (k : Nat)
    (current_size : Int) (field_count : Nat) (field_name : String) :
    PyVal → Option PyVal × Nat
  | .str s =>
      if s.length > 5 then
        let max_str_len : Int :=
          cfg.target_size - current_size - Int.ofNat field_name.length - 10
        if max_str_len > 0 then (some (.str (pyStrTake s max_str_len)), k)
        else (none, k)
      else (none, k)
  | .int _ =>
      if field_count > 10 then (some (.int (pyRandint 1 99 (env.draw k))), k + 1)
      else (none, k)
  | .float _ =>
      if field_count > 10 then (some (.int (pyRandint 1 99 (env.draw k))), k + 1)
      else (none, k)
  | .bool _ =>
      if field_count > 10 then (some (.int (pyRandint 1 99 (env.draw k))), k + 1)
      else (none, k)

/-- The `while` loop of `generate_message` (lines 179-204).  `fuel` bounds
the number of iterations; since every iteration increments `field_count` and
the loop guard requires `field_count < max_fields`, calling it with
`fuel = max_fields.toNat` when `field_count = 0` runs exactly the Python
loop.  Returns the final dict and stream position. -/
def genLoop (cfg : MsgGenConfig) (env : Env) :
    Nat → List (String × PyVal) → Int → Nat → Int → Nat →
    List (String × PyVal) × Nat
  | 0, msg, _, _, _, k => (msg, k)
  | fuel + 1, msg, current_size, field_count, max_fields, k =>
      if current_size < cfg.target_size - cfg.size_tolerance ∧
          (field_count : Int) < max_fields then
        let name := fieldName field_count
        let fv := genFieldValue cfg env k
        let field_json := jsonQuote name ++ ":" ++ pyJsonDumpVal fv.1
        let field_size : Int := Int.ofNat field_json.length + 1
        if current_size + field_size > cfg.target_size then
          match overflowStep cfg env fv.2 current_size field_count name fv.1 with
          | (some v, k2) =>
              genLoop cfg env fuel (dictSet msg name v)
                (current_size + field_size) (field_count + 1) max_fields k2
          | (none, k2) => (msg, k2)
        else
          genLoop cfg env fuel (dictSet msg name fv.1)
            (current_size + field_size) (field_count + 1) max_fields fv.2
      else (msg, k)

/-- `generate_message` up to the final `json.dumps` (lines 163-205): the
message dict it builds and the stream position after the call.  The two
mandatory fields are written first, then the loop appends `field_i`
entries. -/
def generate_message_obj (cfg : MsgGenConfig) (env : Env) (k : Nat) :
    List (String × PyVal) × Nat :=
  let ts := env.now k
  let sym := pyChoiceStr cfg.stock_symbols (env.draw k)
  let k := k + 1
  let message : List (String × PyVal) :=
    [("timestamp", .str ts), ("stockName", .str sym)]
  let base_json := pyJsonDumpObj message
  let current_size : Int := Int.ofNat base_json.length
  let max_fields : Int :=
    cfg.target_field_count +
      pyRandint (-cfg.field_count_variance) cfg.field_count_variance
        (env.draw k)
  let k := k + 1
  genLoop cfg env max_fields.toNat message current_size 0 max_fields k

/-- `generate_message` (line 206): the compact JSON serialization of the
built dict, plus the stream position after the call. -/
def generate_message (cfg : MsgGenConfig) (env : Env) (k : Nat) :
    String × Nat :=
  let r := generate_message_obj cfg env k
  (pyJsonDumpObj r.1, r.2)

/-- The overflow-handling branch as claim C4 describes it: every string
candidate is truncated (stopping only when the usable length is not
positive), a numeric candidate is substituted once at least 10 fields have
been added, booleans are not numeric, and every other case stops. -/
def overflowStepClaim (cfg : MsgGenConfig) (env : Env) (k : Nat)
    (current_size : Int) (field_count : Nat) (field_name : String) :
    PyVal → Option PyVal × Nat
  | .str s =>
      let max_str_len : Int :=
        cfg.target_size - current_size - Int.ofNat field_name.length - 10
      if max_str_len > 0 then (some (.str (pyStrTake s max_str_len)), k)
      else (none, k)
  | .int _ =>
      if field_count ≥ 10 then (some (.int (pyRandint 1 99 (env.draw k))), k + 1)
      else (none, k)
  | .float _ =>
      if field_count ≥ 10 then (some (.int (pyRandint 1 99 (env.draw k))), k + 1)
      else (none, k)
  | .bool _ => (none, k)

/-- Whether a value is a Python `str`. -/
def isStringVal : PyVal → Bool
  | .str _ => true
  | _ => false

/-- Whether a value satisfies `isinstance(v, (int, float))` in Python: `int`,
`float`, and also `bool`, which is a subclass of `int`. -/
def isNumericPy : PyVal → Bool
  | .int _ => true
  | .float _ => true
  | .bool _ => true
  | .str _ => false

/-- The string carried by a `str` value (`""` otherwise). -/
def strContent : PyVal → String
  | .str s => s
  | _ => ""

/-- The overflow-handling branch as the amended claim C4 describes it: a
string candidate longer than 5 characters is truncated to the usable length
`target_size - current_size - len(field_name) - 10` (stopping entirely when
that is not positive), a shorter string stops; a numeric candidate — `int`,
`float`, or `bool` — is substituted by `random.randint(1, 99)` once more
than 10 fields have already been added; every other case stops. -/
def overflowStepAmended (cfg : MsgGenConfig) (env : Env) (k : Nat)
    (current_size : Int) (field_count : Nat) (field_name : String)
    (v : PyVal) : Option PyVal × Nat :=
  if isStringVal v = true ∧ (strContent v).length > 5 then
    let max_str_len : Int :=
      cfg.target_size - current_size - Int.ofNat field_name.length - 10
    if max_str_len > 0 then
      (some (.str (pyStrTake (strContent v) max_str_len)), k)
    else (none, k)
  else if isNumericPy v = true ∧ field_count > 10 then
    (some (.int (pyRandint 1 99 (env.draw k))), k + 1)
  else (none, k)

/-- Worker-count policy of `main` (line 409):
`num_workers = min(max_workers, max(1, args.rate // 1000))`. -/
def num_workers (rate max_workers : Nat) : Nat :=
  min max_workers (max 1 (rate / 1000))

/-- Per-worker rate of `main` (line 410):
`rate_per_worker = args.rate // num_workers`. -/
def rate_per_worker (rate max_workers : Nat) : Nat :=
  rate / num_workers rate max_workers

/-- The spec's `clamp(lo, hi, x)`: `x` capped at `hi` and floored at `lo`. -/
def clamp (lo hi x : Nat) : Nat := max lo (min hi x)

/-- Adaptive batch size of `message_sender_worker` (lines 267-268):
`target_batch = rate // 10 if rate > 0 else batch_size_per_1k;
batch_size = max(min_batch, min(max_batch, target_batch))`. -/
def worker_batch_size (rate min_batch max_batch batch_size_per_1k : Nat) :
    Nat :=
  let target_batch := if rate > 0 then rate / 10 else batch_size_per_1k
  max min_batch (min max_batch target_batch)

/-- Pacing interval of `message_sender_worker` (line 270):
`sleep_time = batch_size / rate if rate > 0 else 0.01` (true division,
modelled as a rational number of seconds). -/
def worker_sleep_time (rate min_batch max_batch batch_size_per_1k : Nat) :
    ℚ :=
  if rate > 0 then
    (worker_batch_size rate min_batch max_batch batch_size_per_1k : ℚ) /
      (rate : ℚ)
  else 1 / 100

/-- The global `stats` dictionary (lines 54-59).  `start_time` and
`last_stats_time` start as `None`, modelled by `Option`. -/
structure Stats where
  total_sent : Nat
  last_second_count : Nat
  start_time : Option ℚ
  last_stats_time : Option ℚ
deriving DecidableEq, Repr

/-- The statistics update of one worker iteration (lines 283-284):
`stats['total_sent'] += sent_count; stats['last_second_count'] +=
sent_count`.  The region contains no `await`, so under the asyncio event
loop it executes atomically as one transition. -/
def addSent (s : Stats) (n : Nat) : Stats :=
  { s with
    total_sent := s.total_sent + n
    last_second_count := s.last_second_count + n }

/-- One reporting tick of `stats_reporter` (lines 306-319): it reads the
window counter and the total, computes the average over the elapsed time,
then resets the window counter to zero and records the tick time.  Returns
the updated stats together with the reported `(current_rate, avg_rate)`.
The whole region between the reporter's two `await` points is one atomic
transition of the event loop. -/
def stats_reporter_tick (s : Stats) (t : ℚ) : Stats × Nat × ℚ :=
  let elapsed : ℚ := t - (s.start_time.getD 0)
  let current_rate := s.last_second_count
  let avg_rate : ℚ := if elapsed > 0 then (s.total_sent : ℚ) / elapsed else 0
  ({ s with last_second_count := 0, last_stats_time := some t },
   current_rate, avg_rate)

/-- Python truthiness of the optional `start_time` value: `None` and `0.0`
are falsy. -/
def pyTruthyOptRat : Option ℚ → Bool
  | none => false
  | some x => decide (x ≠ 0)

/-- The final-statistics read of `main` (lines 450-458):
`elapsed = time.time() - stats['start_time'] if stats['start_time'] else 0;
avg_rate = stats['total_sent'] / elapsed if elapsed > 0 else 0`.  Returns
`(elapsed, total, avg_rate)`. -/
def final_summary_out (s : Stats) (t : ℚ) : ℚ × Nat × ℚ :=
  let elapsed : ℚ :=
    if pyTruthyOptRat s.start_time then t - s.start_time.getD 0 else 0
  let avg_rate : ℚ := if elapsed > 0 then (s.total_sent : ℚ) / elapsed else 0
  (elapsed, s.total_sent, avg_rate)

/-- The final-statistics block in state-passing form: the source block
(lines 450-458) only reads the `stats` dictionary, so the state component
it returns is the unchanged input state. -/
def final_summary (s : Stats) (t : ℚ) : (ℚ × Nat × ℚ) × Stats :=
  (final_summary_out s t, s)

/-- The operations that touch the `stats` dictionary during a run: a worker
statistics update, a reporter tick, and the final read. -/
inductive StatsOp where
  | addSentOp (n : Nat)
  | tickOp (t : ℚ)
  | finalReadOp
deriving DecidableEq

/-- Effect of one statistics operation on the `stats` state. -/
def statsStep (s : Stats) : StatsOp → Stats
  | .addSentOp n => addSent s n
  | .tickOp t => (stats_reporter_tick s t).1
  | .finalReadOp => (final_summary s 0).2

/-- Total of the accepted counts recorded by the `addSent` operations of a
trace. -/
def sumAdds : List StatsOp → Nat
  | [] => 0
  | .addSentOp n :: rest => n + sumAdds rest
  | _ :: rest => sumAdds rest

/-- Process-wide state shared by the signal handler and the engine: the
`shutdown_event` flag and the `stats` dictionary. -/
structure SysState where
  shutdown : Bool
  stats : Stats
deriving DecidableEq

/-- `shutdown_event.set()`: latches the flag; there is no operation in the
program that clears it. -/
def shutdownSet (st : SysState) : SysState := { st with shutdown := true }

/-- `signal_handler` (lines 325-328): prints a notice and sets the shutdown
flag; it touches nothing else. -/
def signal_handler (st : SysState) : SysState := shutdownSet st

/-- Every operation of the run that can touch the shared process state:
a shutdown trigger (signal handler or duration timer, lines 328 and 433),
a worker statistics update, a reporter tick, or the final read. -/
inductive SysOp where
  | sigSet
  | statsUpdate (n : Nat)
  | tick (t : ℚ)
  | finalRead
deriving DecidableEq

/-- Effect of one operation on the shared process state. -/
def sysStep (st : SysState) : SysOp → SysState
  | .sigSet => shutdownSet st
  | .statsUpdate n => { st with stats := addSent st.stats n }
  | .tick t => { st with stats := (stats_reporter_tick st.stats t).1 }
  | .finalRead => { st with stats := (final_summary st.stats 0).2 }

/-- Whether a trace contains a shutdown trigger. -/
def containsSet : List SysOp → Bool
  | [] => false
  | .sigSet :: _ => true
  | _ :: rest => containsSet rest

/-- Oracle describing the behaviour of the Event Hub producer during one
`send_batch` call: `addOk cur m` is whether `event_data_batch.add` succeeds
with current contents `cur` (otherwise it raises `ValueError`, batch full),
and `sendOk b` is whether `producer.send_batch(b)` succeeds (otherwise it
raises, which the outer handler turns into a zero return). -/
structure SinkEnv where
  addOk : List String → String → Bool
  sendOk : List String → Bool

/-- The message loop inside `EventHubSender.send_batch` (lines 234-241):
add each message to the current batch; on `ValueError` send the full batch
and start a new one with the message (a failure of that send, or of the
retried `add`, escapes to the outer handler).  Returns the final unsent
batch, or `none` when an exception escaped. -/
def sendLoop (env : SinkEnv) : List String → List String →
    Option (List String)
  | [], cur => some cur
  | m :: rest, cur =>
      if env.addOk cur m then sendLoop env rest (cur ++ [m])
      else if env.sendOk cur then
        if env.addOk [] m then sendLoop env rest [m] else none
      else none

/-- `EventHubSender.send_batch` (lines 228-250): runs the message loop, sends
the final non-empty batch, and returns `len(messages)`; any exception is
caught and turns the result into `0`. -/
def send_batch (env : SinkEnv) (messages : List String) : Nat :=
  match sendLoop env messages [] with
  | some finalBatch =>
      if finalBatch.length > 0 then
        if env.sendOk finalBatch then messages.length else 0
      else messages.length
  | none => 0

/-- What the environment does during one iteration of the worker loop:
the sink submission succeeds, the sink submission raises inside `send_batch`
(line 248, reported to the worker as a zero count), an exception is raised
in the worker body itself (line 292), or the task is cancelled
(line 290). -/
inductive IterEvent where
  | sinkOk
  | sinkError
  | workerError
  | cancelled
deriving DecidableEq

/-- State owned by one worker task: the shared stats, the position it has
reached in the random/clock stream, and whether its loop is still
running. -/
structure WorkerState where
  stats : Stats
  pos : Nat
  running : Bool
deriving DecidableEq

/-- Result of one worker iteration: the new state, the pause before the
next iteration, and the batch submitted to the sink during the iteration
(empty if the iteration raised before submitting). -/
structure IterOut where
  state : WorkerState
  pause : ℚ
  submitted : List String

/-- The list comprehension of line 277: `batch_size` fresh messages,
advancing the stream position. -/
def genBatch (cfg : MsgGenConfig) (env : Env) : Nat → Nat →
    List String × Nat
  | 0, k => ([], k)
  | n + 1, k =>
      let m := generate_message cfg env k
      let rest := genBatch cfg env n m.2
      (m.1 :: rest.1, rest.2)

/-- One iteration of the `while` loop of `message_sender_worker`
(lines 274-294).  On a normal or sink-error iteration the worker generates
a fresh batch, records the count reported by `send_batch` (`batch_size` on
success, `0` when the sink raised), and pauses `sleep_time` when that is
positive; an exception in the worker body is logged and followed by a fixed
`0.1` second pause with no statistics update; cancellation breaks the
loop. -/
def workerIter (cfg : MsgGenConfig) (env : Env) (batch_size : Nat)
    (sleep_time : ℚ) (ev : IterEvent) (s : WorkerState) : IterOut :=
  match ev with
  | .cancelled => ⟨{ s with running := false }, 0, []⟩
  | .workerError => ⟨s, 1 / 10, []⟩
  | .sinkOk =>
      let g := genBatch cfg env batch_size s.pos
      ⟨⟨addSent s.stats g.1.length, g.2, s.running⟩,
       if sleep_time > 0 then sleep_time else 0, g.1⟩
  | .sinkError =>
      let g := genBatch cfg env batch_size s.pos
      ⟨⟨addSent s.stats 0, g.2, s.running⟩,
       if sleep_time > 0 then sleep_time else 0, g.1⟩

/-- The worker loop `while not shutdown_event.is_set(): ...`
(lines 274-294), driven by a schedule that records, for each iteration, the
shutdown flag observed at the loop head and the environment's behaviour
during the iteration. -/
def workerRun (cfg : MsgGenConfig) (env : Env) (batch_size : Nat)
    (sleep_time : ℚ) : List (Bool × IterEvent) → WorkerState → WorkerState
  | [], s => s
  | (sd, ev) :: rest, s =>
      if s.running = false then s
      else if sd then { s with running := false }
      else
        workerRun cfg env batch_size sleep_time rest
          (workerIter cfg env batch_size sleep_time ev s).state

/-- Shared concrete oracle for witnesses and counterexamples: every draw is
`0`, every float prints as `0.5`, the clock prints `T`. -/
def env0 : Env := ⟨fun _ => 0, fun _ => "0.5", fun _ => "T"⟩

/-- Shared concrete generator configuration for witnesses and
counterexamples (target size 60, tolerance 50, remaining knobs at the
config defaults). -/
def cfgEx : MsgGenConfig :=
  mkMessageGenerator 60 ["ZZZZ"] 100 5 50 5 15 1 100000 2

/-- Shared concrete initial worker state for witnesses and
counterexamples. -/
def wEx : WorkerState := ⟨⟨0, 0, none, none⟩, 0, true⟩

theorem dictGet_dictSet_ne (m : List (String × PyVal)) (k key : String)
    (v : PyVal) (h : k ≠ key) :
    dictGet (dictSet m k v) key = dictGet m key := by
  induction m with
  | nil => simp [dictSet, dictGet, h]
  | cons hd tl ih =>
      obtain ⟨k1, w⟩ := hd
      by_cases hk : k1 = k
      · subst hk
        simp [dictSet, dictGet, h]
      · simp only [dictSet, if_neg hk, dictGet]
        by_cases hk2 : k1 = key
        · simp [hk2]
        · simp [hk2, ih]

theorem fieldName_ne_timestamp (n : Nat) : fieldName n ≠ "timestamp" := by
  intro h
  have h2 := congrArg String.data h
  rw [fieldName, String.data_append] at h2
  have hf : "field_".data = ['f', 'i', 'e', 'l', 'd', '_'] := rfl
  have ht : "timestamp".data = ['t', 'i', 'm', 'e', 's', 't', 'a', 'm', 'p'] :=
    rfl
  rw [hf, ht] at h2
  simp only [List.cons_append] at h2
  injection h2 with h3 _
  exact absurd h3 (by decide)

theorem fieldName_ne_stockName (n : Nat) : fieldName n ≠ "stockName" := by
  intro h
  have h2 := congrArg String.data h
  rw [fieldName, String.data_append] at h2
  have hf : "field_".data = ['f', 'i', 'e', 'l', 'd', '_'] := rfl
  have ht : "stockName".data = ['s', 't', 'o', 'c', 'k', 'N', 'a', 'm', 'e'] :=
    rfl
  rw [hf, ht] at h2
  simp only [List.cons_append] at h2
  injection h2 with h3 _
  exact absurd h3 (by decide)

theorem genLoop_dictGet (cfg : MsgGenConfig) (env : Env) (fuel : Nat)
    (msg : List (String × PyVal)) (cs : Int) (fc : Nat) (mf : Int) (k : Nat)
    (key : String) (hkey : ∀ n, fieldName n ≠ key) :
    dictGet (genLoop cfg env fuel msg cs fc mf k).1 key = dictGet msg key := by
  induction fuel generalizing msg cs fc k with
  | zero => rfl
  | succ fuel ih =>
      rw [genLoop]
      split
      · dsimp only
        split
        · split
          · rw [ih, dictGet_dictSet_ne _ _ _ _ (hkey _)]
          · rfl
        · rw [ih, dictGet_dictSet_ne _ _ _ _ (hkey _)]
      · rfl

theorem pyChoiceStr_mem (l : List String) (d : Nat) (h : l ≠ []) :
    pyChoiceStr l d ∈ l := by
  unfold pyChoiceStr
  have hlen : 0 < l.length := List.length_pos.mpr h
  have hmod : d % l.length < l.length := Nat.mod_lt _ hlen
  rw [List.getD_eq_getElem?_getD, List.getElem?_eq_getElem hmod]
  exact List.getElem_mem hmod

theorem mkMessageGenerator_symbols_ne_nil (tsz : Int) (syms : List String)
    (tfc fcv tol slmin slmax nmin nmax : Int) (fp : Nat) :
    (mkMessageGenerator tsz syms tfc fcv tol slmin slmax nmin nmax
      fp).stock_symbols ≠ [] := by
  simp only [mkMessageGenerator]
  split
  · simp
  · rename_i hne
    simpa [List.isEmpty_iff] using hne

theorem genFieldValue_pos_lt (cfg : MsgGenConfig) (env : Env) (k : Nat) :
    k < (genFieldValue cfg env k).2 := by
  unfold genFieldValue
  dsimp only
  split_ifs <;> simp <;> omega

theorem overflowStep_pos_le (cfg : MsgGenConfig) (env : Env) (k : Nat)
    (cs : Int) (fc : Nat) (name : String) (v : PyVal) :
    k ≤ (overflowStep cfg env k cs fc name v).2 := by
  cases v <;> simp only [overflowStep] <;> split_ifs <;> simp

theorem genLoop_pos_le (cfg : MsgGenConfig) (env : Env) (fuel : Nat)
    (msg : List (String × PyVal)) (cs : Int) (fc : Nat) (mf : Int) (k : Nat) :
    k ≤ (genLoop cfg env fuel msg cs fc mf k).2 := by
  induction fuel generalizing msg cs fc k with
  | zero => exact Nat.le_refl k
  | succ fuel ih =>
      rw [genLoop]
      split
      · dsimp only
        have hgf := genFieldValue_pos_lt cfg env k
        split
        · split
          · rename_i v k2 heq
            have hov := overflowStep_pos_le cfg env
              (genFieldValue cfg env k).2 cs fc (fieldName fc)
              (genFieldValue cfg env k).1
            rw [heq] at hov
            exact Nat.le_trans (Nat.le_of_lt hgf) (Nat.le_trans hov (ih _ _ _ _))
          · rename_i k2 heq
            have hov := overflowStep_pos_le cfg env
              (genFieldValue cfg env k).2 cs fc (fieldName fc)
              (genFieldValue cfg env k).1
            rw [heq] at hov
            exact Nat.le_trans (Nat.le_of_lt hgf) hov
        · exact Nat.le_trans (Nat.le_of_lt hgf) (ih _ _ _ _)
      · exact Nat.le_refl k

theorem generate_message_pos_lt (cfg : MsgGenConfig) (env : Env) (k : Nat) :
    k < (generate_message cfg env k).2 := by
  unfold generate_message generate_message_obj
  dsimp only
  have := genLoop_pos_le cfg env
    (cfg.target_field_count +
      pyRandint (-cfg.field_count_variance) cfg.field_count_variance
        (env.draw (k + 1))).toNat
    [("timestamp", PyVal.str (env.now k)),
     ("stockName", PyVal.str (pyChoiceStr cfg.stock_symbols (env.draw k)))]
    (Int.ofNat (pyJsonDumpObj
      [("timestamp", PyVal.str (env.now k)),
       ("stockName",
        PyVal.str (pyChoiceStr cfg.stock_symbols (env.draw k)))]).length)
    0
    (cfg.target_field_count +
      pyRandint (-cfg.field_count_variance) cfg.field_count_variance
        (env.draw (k + 1)))
    (k + 1 + 1)
  omega

theorem genBatch_pos_le (cfg : MsgGenConfig) (env : Env) (n k : Nat) :
    k ≤ (genBatch cfg env n k).2 := by
  induction n generalizing k with
  | zero => exact Nat.le_refl k
  | succ m ih =>
      rw [genBatch]
      dsimp only
      exact Nat.le_trans (Nat.le_of_lt (generate_message_pos_lt cfg env k))
        (ih _)

theorem genBatch_pos_lt (cfg : MsgGenConfig) (env : Env) (n k : Nat)
    (hn : 1 ≤ n) : k < (genBatch cfg env n k).2 := by
  cases n with
  | zero => omega
  | succ m =>
      rw [genBatch]
      dsimp only
      exact Nat.lt_of_lt_of_le (generate_message_pos_lt cfg env k)
        (genBatch_pos_le cfg env m _)

theorem foldl_addSent_total (l : List Nat) (s : Stats) :
    (l.foldl addSent s).total_sent = s.total_sent + l.sum := by
  induction l generalizing s with
  | nil => simp
  | cons n rest ih =>
      simp only [List.foldl_cons, List.sum_cons, ih, addSent]
      omega

theorem foldl_statsStep_total (ops : List StatsOp) (s : Stats) :
    (ops.foldl statsStep s).total_sent = s.total_sent + sumAdds ops := by
  induction ops generalizing s with
  | nil => simp [sumAdds]
  | cons op rest ih =>
      cases op with
      | addSentOp n =>
          simp only [List.foldl_cons, statsStep, addSent, sumAdds, ih]
          omega
      | tickOp t =>
          simp [List.foldl_cons, statsStep, stats_reporter_tick, sumAdds, ih]
      | finalReadOp =>
          simp [List.foldl_cons, statsStep, final_summary, sumAdds, ih]

theorem foldl_sysStep_shutdown (ops : List SysOp) (st : SysState) :
    (ops.foldl sysStep st).shutdown = (st.shutdown || containsSet ops) := by
  induction ops generalizing st with
  | nil => simp [containsSet]
  | cons op rest ih =>
      cases op with
      | sigSet =>
          simp [List.foldl_cons, sysStep, shutdownSet, containsSet, ih]
      | statsUpdate n =>
          simp [List.foldl_cons, sysStep, containsSet, ih]
      | tick t =>
          simp [List.foldl_cons, sysStep, containsSet, ih]
      | finalRead =>
          simp [List.foldl_cons, sysStep, containsSet, ih]

theorem workerIter_sinkError_running (cfg : MsgGenConfig) (env : Env)
    (bs : Nat) (st : ℚ) (s : WorkerState) :
    (workerIter cfg env bs st .sinkError s).state.running = s.running := rfl

theorem workerRun_sinkError_running (cfg : MsgGenConfig) (env : Env)
    (bs : Nat) (st : ℚ) (n : Nat) (s : WorkerState) :
    (workerRun cfg env bs st (List.replicate n (false, .sinkError))
      s).running = s.running := by
  induction n generalizing s with
  | zero => rfl
  | succ m ih =>
      rw [List.replicate_succ, workerRun]
      by_cases hr : s.running = false
      · rw [if_pos hr]
      · rw [if_neg hr, if_neg (by decide)]
        rw [ih, workerIter_sinkError_running]

/-- Claim C1: the engine computes `numWorkers = clamp(1, concurrencyCap,
globalRate / 1000)` and `perWorkerRate = globalRate / numWorkers` with
integer division (source lines 409-410; the code's
`min(cap, max(1, rate // 1000))` agrees with the spec's clamp for any cap
of at least one worker), and in particular rate 10000 with cap 50 gives 10
workers at 1000 msg/s, rate 500 gives 1 worker at 500 msg/s, and rate
200000 gives 50 workers at 4000 msg/s. -/
theorem C1_worker_split (rate cap : Nat) (hc : 1 ≤ cap) :
    num_workers rate cap = clamp 1 cap (rate / 1000) ∧
    rate_per_worker rate cap = rate / num_workers rate cap ∧
    num_workers 10000 50 = 10 ∧ rate_per_worker 10000 50 = 1000 ∧
    num_workers 500 50 = 1 ∧ rate_per_worker 500 50 = 500 ∧
    num_workers 200000 50 = 50 ∧ rate_per_worker 200000 50 = 4000 := by
  refine ⟨?_, rfl, by decide, by decide, by decide, by decide, by decide,
    by decide⟩
  unfold num_workers clamp
  omega

/-- Witness for C1 at `rate = 10000`, `cap = 50`. -/
theorem C1_witness :
    1 ≤ 50 ∧
    (num_workers 10000 50 = clamp 1 50 (10000 / 1000) ∧
     rate_per_worker 10000 50 = 10000 / num_workers 10000 50 ∧
     num_workers 10000 50 = 10 ∧ rate_per_worker 10000 50 = 1000 ∧
     num_workers 500 50 = 1 ∧ rate_per_worker 500 50 = 500 ∧
     num_workers 200000 50 = 50 ∧ rate_per_worker 200000 50 = 4000) :=
  ⟨by decide, C1_worker_split 10000 50 (by decide)⟩

/-- Claim C2: the worker derives, once at start, `batchSize =
clamp(rateShare / 10, minBatch, maxBatch)` for a positive rate share and
`clamp(fallbackBatchSize, minBatch, maxBatch)` for a zero rate share
(source lines 267-268), and a pacing interval of `batchSize / rateShare`
seconds for a positive rate share and 10 ms for a zero one (line 270); in
particular `rateShare = 1000` with bounds 1..1000 and fallback 100 gives
batch size 100 and a 0.1 s interval. -/
theorem C2_worker_batch (rate mb xb fb : Nat) :
    (0 < rate →
      worker_batch_size rate mb xb fb = clamp mb xb (rate / 10) ∧
      worker_sleep_time rate mb xb fb =
        (worker_batch_size rate mb xb fb : ℚ) / (rate : ℚ)) ∧
    (rate = 0 →
      worker_batch_size rate mb xb fb = clamp mb xb fb ∧
      worker_sleep_time rate mb xb fb = 1 / 100) ∧
    worker_batch_size 1000 1 1000 100 = 100 ∧
    worker_sleep_time 1000 1 1000 100 = 1 / 10 := by
  refine ⟨fun h => ⟨?_, ?_⟩, fun h => ⟨?_, ?_⟩, by decide, ?_⟩
  · simp [worker_batch_size, clamp, h]
  · simp [worker_sleep_time, h]
  · simp [worker_batch_size, clamp, h]
  · simp [worker_sleep_time, h]
  · norm_num [worker_sleep_time, worker_batch_size]

/-- Witness for C2 at `rateShare = 1000` with the default bounds. -/
theorem C2_witness :
    0 < 1000 ∧
    (worker_batch_size 1000 1 1000 100 = clamp 1 1000 (1000 / 10) ∧
     worker_sleep_time 1000 1 1000 100 =
       (worker_batch_size 1000 1 1000 100 : ℚ) / (1000 : ℚ)) :=
  ⟨by decide, (C2_worker_batch 1000 1 1000 100).1 (by decide)⟩

/-- Claim C7: `totalSent` is monotonically non-decreasing and equals the
sum of all `addSent` amounts: every operation on the statistics state — a
worker update (lines 283-284), a reporter tick (lines 306-319) or the final
summary read (lines 450-458) — either raises `total_sent` by the recorded
count or leaves it unchanged, and after any trace of such operations
`total_sent` is the initial value plus the sum of the recorded counts. -/
theorem C7_total_sent_invariant :
    (∀ (s : Stats) (op : StatsOp), s.total_sent ≤ (statsStep s op).total_sent)
    ∧ ∀ (ops : List StatsOp) (s : Stats),
        (ops.foldl statsStep s).total_sent = s.total_sent + sumAdds ops := by
  constructor
  · intro s op
    cases op <;>
      simp [statsStep, addSent, stats_reporter_tick, final_summary]
  · exact foldl_statsStep_total

/-- Claim C8: the shutdown signal is idempotent and one-directional: a
second `signal_handler` trigger is a no-op on the process state (and hence
on the final summary), and over any trace of process operations the flag is
set afterwards exactly when it was set before or some operation set it —
no operation ever clears it. -/
theorem C8_shutdown_idempotent :
    (∀ st : SysState, signal_handler (signal_handler st) = signal_handler st)
    ∧ (∀ (st : SysState) (t : ℚ),
        final_summary_out (signal_handler (signal_handler st)).stats t =
          final_summary_out (signal_handler st).stats t)
    ∧ ∀ (ops : List SysOp) (st : SysState),
        (ops.foldl sysStep st).shutdown = (st.shutdown || containsSet ops) :=
  ⟨fun _ => rfl, fun _ _ => rfl, foldl_sysStep_shutdown⟩

/-- Claim C9: one reporting tick reads the window count, resets only the
window counter and the last-report timestamp, and leaves `total_sent` and
`start_time` unchanged (lines 306-319); the final summary read at shutdown
(lines 450-458) only reads and resets nothing. -/
theorem C9_reporter_frame :
    (∀ (s : Stats) (t : ℚ),
      (stats_reporter_tick s t).1.total_sent = s.total_sent ∧
      (stats_reporter_tick s t).1.start_time = s.start_time ∧
      (stats_reporter_tick s t).1.last_second_count = 0 ∧
      (stats_reporter_tick s t).1.last_stats_time = some t ∧
      (stats_reporter_tick s t).2.1 = s.last_second_count)
    ∧ ∀ (s : Stats) (t : ℚ), (final_summary s t).2 = s :=
  ⟨fun _ _ => ⟨rfl, rfl, rfl, rfl, rfl⟩, fun _ _ => rfl⟩

/-- Claim C10: `send_batch` is all-or-nothing: whatever the producer does —
however many sub-batch splits occur and whichever internal call raises —
the call returns either the full input length or zero, never a strictly
partial count (lines 228-250: the only `return` sites are `len(messages)`
and the exception handler's `0`). -/
theorem C10_send_batch_all_or_nothing (env : SinkEnv)
    (messages : List String) :
    send_batch env messages = messages.length ∨
      send_batch env messages = 0 := by
  unfold send_batch
  cases sendLoop env messages [] with
  | none => exact Or.inr rfl
  | some fb =>
      dsimp only
      split_ifs <;> simp

/-- Claim C6: `addSent` loses no increments under concurrent invocation.
Each worker's statistics update (lines 283-284) contains no `await`, so
under the asyncio event loop it is one atomic transition; a concurrent
execution of K callers each adding 1, M times, is therefore an arbitrary
interleaving — a permutation — of the K*M individual updates, and every
such interleaving leaves `total_sent` exactly K*M. -/
theorem C6_concurrent_addSent (K M : Nat) (l : List Nat)
    (hperm : l.Perm ((List.replicate K (List.replicate M 1)).flatten)) :
    (l.foldl addSent ⟨0, 0, none, none⟩).total_sent = K * M := by
  rw [foldl_addSent_total, hperm.sum_eq, List.sum_flatten,
    List.map_replicate, List.sum_const_nat, List.sum_const_nat]
  simp

/-- Witness for C6 with two callers adding two ones each, in an interleaved
order. -/
theorem C6_witness :
    ([1, 1, 1, 1] : List Nat).Perm
      ((List.replicate 2 (List.replicate 2 1)).flatten) ∧
    (([1, 1, 1, 1] : List Nat).foldl addSent ⟨0, 0, none, none⟩).total_sent =
      2 * 2 :=
  ⟨List.isPerm_iff.mp (by decide),
   C6_concurrent_addSent 2 2 [1, 1, 1, 1] (List.isPerm_iff.mp (by decide))⟩

theorem generate_message_fields (cfg : MsgGenConfig) (env : Env) (k : Nat)
    (hne : cfg.stock_symbols ≠ []) :
    (generate_message cfg env k).1 =
      pyJsonDumpObj (generate_message_obj cfg env k).1 ∧
    dictGet (generate_message_obj cfg env k).1 "timestamp" =
      some (.str (env.now k)) ∧
    ∃ sym, dictGet (generate_message_obj cfg env k).1 "stockName" =
      some (.str sym) ∧ sym ∈ cfg.stock_symbols := by
  refine ⟨rfl, ?_, ?_⟩
  · unfold generate_message_obj
    dsimp only
    rw [genLoop_dictGet _ _ _ _ _ _ _ _ _ fieldName_ne_timestamp]
    simp [dictGet]
  · refine ⟨pyChoiceStr cfg.stock_symbols (env.draw k), ?_,
      pyChoiceStr_mem _ _ hne⟩
    unfold generate_message_obj
    dsimp only
    rw [genLoop_dictGet _ _ _ _ _ _ _ _ _ fieldName_ne_stockName]
    simp [dictGet]

/-- Claim C3: for every generator configuration whose target size is at
least the serialized size of the two mandatory fields plus a small
constant, and every behaviour of the random/clock oracle, `generate_message`
returns the compact JSON serialization of a structured object — hence
syntactically valid, parseable data — that contains the `timestamp` field
(carrying the generation-time clock value) and the `stockName` field, whose
value is drawn from the configured symbol set (the passed list, or the
default one when that is empty, per line 133). -/
theorem C3_generate_message_valid (tsz : Int) (syms : List String)
    (tfc fcv tol slmin slmax nmin nmax : Int) (fp : Nat) (env : Env)
    (k : Nat)
    (_hsz : ((pyJsonDumpObj
        [("timestamp", PyVal.str (env.now k)),
         ("stockName", PyVal.str (pyChoiceStr
            (mkMessageGenerator tsz syms tfc fcv tol slmin slmax nmin nmax
              fp).stock_symbols (env.draw k)))]).length : Int) + 2 ≤ tsz) :
    (generate_message
        (mkMessageGenerator tsz syms tfc fcv tol slmin slmax nmin nmax fp)
        env k).1 =
      pyJsonDumpObj (generate_message_obj
        (mkMessageGenerator tsz syms tfc fcv tol slmin slmax nmin nmax fp)
        env k).1 ∧
    dictGet (generate_message_obj
        (mkMessageGenerator tsz syms tfc fcv tol slmin slmax nmin nmax fp)
        env k).1 "timestamp" = some (.str (env.now k)) ∧
    ∃ sym, dictGet (generate_message_obj
        (mkMessageGenerator tsz syms tfc fcv tol slmin slmax nmin nmax fp)
        env k).1 "stockName" = some (.str sym) ∧
      sym ∈ (mkMessageGenerator tsz syms tfc fcv tol slmin slmax nmin nmax
        fp).stock_symbols :=
  generate_message_fields _ env k
    (mkMessageGenerator_symbols_ne_nil tsz syms tfc fcv tol slmin slmax nmin
      nmax fp)

/-- Witness for C3: target size 60, one configured symbol, the shared
concrete oracle. -/
theorem C3_witness :
    ((pyJsonDumpObj
        [("timestamp", PyVal.str (env0.now 0)),
         ("stockName", PyVal.str (pyChoiceStr
            (mkMessageGenerator 60 ["ZZZZ"] 100 5 50 5 15 1 100000
              2).stock_symbols (env0.draw 0)))]).length : Int) + 2 ≤ 60 ∧
    ((generate_message
        (mkMessageGenerator 60 ["ZZZZ"] 100 5 50 5 15 1 100000 2)
        env0 0).1 =
      pyJsonDumpObj (generate_message_obj
        (mkMessageGenerator 60 ["ZZZZ"] 100 5 50 5 15 1 100000 2)
        env0 0).1 ∧
    dictGet (generate_message_obj
        (mkMessageGenerator 60 ["ZZZZ"] 100 5 50 5 15 1 100000 2)
        env0 0).1 "timestamp" = some (.str (env0.now 0)) ∧
    ∃ sym, dictGet (generate_message_obj
        (mkMessageGenerator 60 ["ZZZZ"] 100 5 50 5 15 1 100000 2)
        env0 0).1 "stockName" = some (.str sym) ∧
      sym ∈ (mkMessageGenerator 60 ["ZZZZ"] 100 5 50 5 15 1 100000
        2).stock_symbols) :=
  ⟨by decide,
   C3_generate_message_valid 60 ["ZZZZ"] 100 5 50 5 15 1 100000 2 env0 0
     (by decide)⟩

/-- Counterexample to claim C4 as stated, at concrete inputs: a string
candidate of length 5 is not truncated but stops the loop (the code also
requires `len > 5`, line 189); a numeric candidate with exactly 10 fields
already added is not substituted but stops the loop (the code requires
`field_count > 10`, line 196); and a boolean candidate with 11 fields added
is substituted, although the claim's "every other case stops" covers it
(Python's `bool` is an `int`). -/
theorem C4_counterexample :
    overflowStep cfgEx env0 0 20 0 "field_0" (.str "abcde") ≠
      overflowStepClaim cfgEx env0 0 20 0 "field_0" (.str "abcde") ∧
    overflowStep cfgEx env0 0 20 10 "field_10" (.int 5) ≠
      overflowStepClaim cfgEx env0 0 20 10 "field_10" (.int 5) ∧
    overflowStep cfgEx env0 0 20 11 "field_11" (.bool true) ≠
      overflowStepClaim cfgEx env0 0 20 11 "field_11" (.bool true) :=
  ⟨by decide, by decide, by decide⟩

/-- Claim C4 as amended: whenever appending the next candidate field would
overflow the target size, a string candidate longer than 5 characters is
truncated to the usable length (and if that is zero or negative, appending
stops entirely), a string of 5 or fewer characters stops appending; a
numeric candidate — including booleans, which Python treats as integers —
is replaced by a small random number in 1..99 when strictly more than 10
fields have already been added; in every other case appending stops
entirely.  The code's branch (`overflowStep`, lines 188-200, as invoked by
the generation loop) coincides with this description on every input. -/
theorem C4_overflow_amended (cfg : MsgGenConfig) (env : Env) (k : Nat)
    (cs : Int) (fc : Nat) (name : String) (v : PyVal) :
    overflowStep cfg env k cs fc name v =
      overflowStepAmended cfg env k cs fc name v := by
  cases v <;>
    simp [overflowStep, overflowStepAmended, isStringVal, isNumericPy,
      strContent]

/-- Claim C5 as amended: after a sink-submission failure (reported by
`send_batch` as a zero count, its error already logged inside the wrapper,
lines 248-250) the worker does not back off for a fixed 100 ms — it pauses
for the ordinary pacing interval `sleep_time` (the fixed 0.1 s pause
applies only to exceptions raised in the worker body itself, lines
292-294); the worker stays alive through any number of consecutive sink
failures until the shutdown flag is observed, and every submission consists
of freshly generated messages: the submitted batch is produced at the
worker's current oracle position and that position strictly advances each
iteration, so no previously submitted payload is ever resubmitted. -/
theorem C5_sink_error_recovery (cfg : MsgGenConfig) (env : Env) (bs : Nat)
    (st : ℚ) (s : WorkerState) (n : Nat) (rest : List (Bool × IterEvent))
    (ev : IterEvent) (hbs : 1 ≤ bs) (hrun : s.running = true) :
    (workerIter cfg env bs st .sinkError s).pause =
      (if st > 0 then st else 0) ∧
    (workerIter cfg env bs st .workerError s).pause = 1 / 10 ∧
    (workerIter cfg env bs st .sinkError s).state.running = true ∧
    (workerRun cfg env bs st (List.replicate n (false, .sinkError))
      s).running = true ∧
    (workerRun cfg env bs st ((true, ev) :: rest) s).running = false ∧
    (workerIter cfg env bs st .sinkError s).submitted =
      (genBatch cfg env bs s.pos).1 ∧
    s.pos < (workerIter cfg env bs st .sinkError s).state.pos := by
  refine ⟨rfl, rfl, ?_, ?_, ?_, rfl, ?_⟩
  · rw [workerIter_sinkError_running]
    exact hrun
  · rw [workerRun_sinkError_running]
    exact hrun
  · rw [workerRun, if_neg (by simp [hrun]), if_pos rfl]
  · exact genBatch_pos_lt cfg env bs s.pos hbs

/-- Counterexample to claim C5 as stated, at a concrete configuration: for
a rate share of 15 msg/s the engine derives batch size 1 and pacing
interval 1/15 s, and after a sink-submission failure the worker's pause
before the next iteration is that pacing interval, 1/15 s — not a fixed
backoff of about 100 ms. -/
theorem C5_counterexample :
    (workerIter cfgEx env0 (worker_batch_size 15 1 1000 100)
        (worker_sleep_time 15 1 1000 100) .sinkError wEx).pause = 1 / 15 ∧
    ¬((1 : ℚ) / 15 = 1 / 10) := by
  constructor
  · show (if worker_sleep_time 15 1 1000 100 > 0
        then worker_sleep_time 15 1 1000 100 else 0) = 1 / 15
    have hb : worker_batch_size 15 1 1000 100 = 1 := by decide
    norm_num [worker_sleep_time, hb]
  · norm_num

/-- Witness for C5: batch size 1, pacing interval 1/15 s, the shared
oracle and initial worker state, three consecutive sink failures. -/
theorem C5_witness :
    1 ≤ 1 ∧ wEx.running = true ∧
    ((workerIter cfgEx env0 1 (1 / 15) .sinkError wEx).pause =
      (if (1 : ℚ) / 15 > 0 then 1 / 15 else 0) ∧
    (workerIter cfgEx env0 1 (1 / 15) .workerError wEx).pause = 1 / 10 ∧
    (workerIter cfgEx env0 1 (1 / 15) .sinkError wEx).state.running = true ∧
    (workerRun cfgEx env0 1 (1 / 15)
      (List.replicate 3 (false, .sinkError)) wEx).running = true ∧
    (workerRun cfgEx env0 1 (1 / 15) ((true, .sinkOk) :: []) wEx).running =
      false ∧
    (workerIter cfgEx env0 1 (1 / 15) .sinkError wEx).submitted =
      (genBatch cfgEx env0 1 wEx.pos).1 ∧
    wEx.pos < (workerIter cfgEx env0 1 (1 / 15) .sinkError wEx).state.pos) :=
  ⟨by decide, by decide,
   C5_sink_error_recovery cfgEx env0 1 (1 / 15) wEx 3 [] .sinkOk
     (by decide) (by decide)⟩
